import Mathlib

/-!
Shallow embedding of the iroh-swift FFI boundary layer, translated from
src/rust/src/node.rs and src/rust/src/ffi.rs.

The repository is a callback-based C ABI over external async services
(blob store, ticket codec, document engine, signing crate, tokio).
Each exported operation is embedded as a pure function from its
(nullable) arguments and the outcomes of the external actions it invokes
to the ordered list of callback invocations it performs, plus a flag
recording whether the native operation was attempted.  External
collaborators that live outside this repository are modelled from the
interface the spec gives them; each such definition says so in its doc
comment.
-/

namespace IrohSwift

/-- Byte sequences crossing the boundary; each element is one byte value. -/
abbrev Bytes := List Nat

/-- Blob format: `IrohBlobFormat` in ffi.rs (`BlobFormat` of the external crate). -/
inductive BlobFormat
  | Raw
  | HashSeq
deriving DecidableEq, Repr

/-- Modelled from the spec: the content identifier of the external
content-addressed store (`store.put(bytes) -> contentId`).  Content addressing
is collision-free, so the identifier is represented by the content itself. -/
def hashOf (b : Bytes) : Bytes := b

/-- Modelled from the spec: a blob ticket combines a content identifier with
the provider's node address and a format (glossary entry "Ticket"). -/
structure BlobTicket where
  nodeId : Nat
  hash : Bytes
  fmt : BlobFormat
deriving DecidableEq, Repr

/-- Recursive flag of the external ticket crate (`BlobTicket::recursive`):
true exactly for collection (HashSeq) tickets. -/
def BlobTicket.recursive (t : BlobTicket) : Bool :=
  t.fmt == BlobFormat.HashSeq

/-- Modelled from the spec: the serialized form of a blob ticket.  Ticket
serialization is an external injective codec, so a string is either the
well-formed serialization of exactly one ticket or garbage that no ticket
serializes to. -/
inductive TicketStr
  | wellFormed (t : BlobTicket)
  | garbage (id : Nat)
deriving DecidableEq, Repr

/-- Modelled from the spec: parsing a blob-ticket string
(`ticket_str.parse::<BlobTicket>()`), succeeding exactly on well-formed
serializations. -/
def parseBlobTicket : TicketStr → Option BlobTicket
  | TicketStr.wellFormed t => some t
  | TicketStr.garbage _ => none

/-- Modelled from the spec: `BlobTicket::to_string`, the left inverse of
parsing. -/
def ticketToString (t : BlobTicket) : TicketStr :=
  TicketStr.wellFormed t

/-- Modelled from the spec: the serialized form of a document ticket
(`DocTicket`), identified only by an abstract id. -/
inductive DocTicketStr
  | wellFormed (id : Nat)
  | garbage (id : Nat)
deriving DecidableEq, Repr

/-- Modelled from the spec: parsing a document-ticket string. -/
def parseDocTicket : DocTicketStr → Option Nat
  | DocTicketStr.wellFormed i => some i
  | DocTicketStr.garbage _ => none

/-- Modelled from the spec: the hex form of a content hash as accepted by
`iroh_doc_read_content` and the tag operations. -/
inductive HashStr
  | wellFormed (h : Bytes)
  | garbage (id : Nat)
deriving DecidableEq, Repr

/-- Modelled from the spec: parsing a content-hash string (`hash_str.parse`). -/
def parseHash : HashStr → Option Bytes
  | HashStr.wellFormed h => some h
  | HashStr.garbage _ => none

/-- A nullable C string argument at the boundary: the pointer is null, the
bytes are not valid UTF-8, or they decode to a value of `α`.  Mirrors the
`is_null` / `CStr::to_str` checks every string-taking export performs. -/
inductive CStrArg (α : Type)
  | utf8 (val : α)
  | invalidUtf8
deriving DecidableEq

/-- Modelled from the spec: the external blob store's local state, an
association of content identifiers to blob contents. -/
abbrev Store := List (Bytes × Bytes)

/-- Modelled from the spec: `store.get(contentId)` against the local store. -/
def storeLookup (s : Store) (h : Bytes) : Option Bytes :=
  (s.find? fun p => decide (p.1 = h)).map Prod.snd

/-- Modelled from the spec: `store.put(bytes) -> contentId`
(`store.add_slice` in node.rs), returning the updated store and the new
content identifier. -/
def storeAdd (s : Store) (b : Bytes) : Store × Bytes :=
  ((hashOf b, b) :: s, hashOf b)

/-- Modelled from the spec: `store.downloadFrom(contentId, peers)`
(`downloader.download` in node.rs).  The download succeeds when the content is
already locally present (the round-trip scenario); fetching from a remote peer
is outside the boundary and modelled as failure. -/
def downloadBlob (s : Store) (h : Bytes) (_peer : Nat) : Except String Store :=
  match storeLookup s h with
  | some _ => Except.ok s
  | none => Except.error "Failed to download blob"

/-- IrohNode (node.rs 36-47): the per-node state visible to the boundary—its
endpoint identity, the local blob store, and whether the Docs engine was
provisioned at construction. -/
structure IrohNode where
  nodeId : Nat
  store : Store
  docs_enabled : Bool
deriving DecidableEq

/-- IrohNode::docs (node.rs 152-154): the Docs engine is `Some` exactly when
`docs_enabled` was set at construction (node.rs 95-117). -/
def IrohNode.docs (n : IrohNode) : Option Unit :=
  if n.docs_enabled then some () else none

/-- IrohNode::put (node.rs 174-191): add the bytes to the store and build a
ticket naming this node as provider.  `io` supplies the outcome of the
external `add_slice` action. -/
def IrohNode.put (n : IrohNode) (data : Bytes) (io : Except String Unit) :
    IrohNode × Except String TicketStr :=
  match io with
  | Except.error e => (n, Except.error ("Failed to add bytes to store: " ++ e))
  | Except.ok _ =>
    let res := storeAdd n.store data
    ({ n with store := res.1 },
      Except.ok (ticketToString ⟨n.nodeId, res.2, BlobFormat.Raw⟩))

/-- IrohNode::get (node.rs 196-220): parse the ticket, download the blob from
the peer named in it, then read the bytes from the local store. -/
def IrohNode.get (n : IrohNode) (ticketStr : TicketStr) :
    IrohNode × Except String Bytes :=
  match parseBlobTicket ticketStr with
  | none => (n, Except.error "Failed to parse ticket")
  | some t =>
    match downloadBlob n.store t.hash t.nodeId with
    | Except.error e => (n, Except.error e)
    | Except.ok s =>
      match storeLookup s t.hash with
      | some b => ({ n with store := s }, Except.ok b)
      | none => ({ n with store := s }, Except.error "Failed to read bytes from store")

/-- IrohNode::put_with_timeout (node.rs 280-302).  `tokio::time::timeout` is
modelled from the spec's race semantics: the action completes within the
window iff its completion delay is at most the timeout; on timeout the
action's eventual result is discarded and a timeout error is returned.
`timeout_ms = 0` applies no timeout. -/
def IrohNode.put_with_timeout (n : IrohNode) (data : Bytes) (timeout_ms : Nat)
    (io : Except String Unit) (delay : Nat) : IrohNode × Except String TicketStr :=
  if timeout_ms = 0 then n.put data io
  else if delay ≤ timeout_ms then n.put data io
  else (n, Except.error "Operation timed out")

/-- IrohNode::get_with_timeout (node.rs 309-337), with the same timeout model
as `IrohNode.put_with_timeout`. -/
def IrohNode.get_with_timeout (n : IrohNode) (ticketStr : TicketStr)
    (timeout_ms : Nat) (delay : Nat) : IrohNode × Except String Bytes :=
  if timeout_ms = 0 then n.get ticketStr
  else if delay ≤ timeout_ms then n.get ticketStr
  else (n, Except.error "Operation timed out")

/-- IrohTicketInfo (ffi.rs 287-300): the result record of ticket validation. -/
structure TicketInfo where
  is_valid : Bool
  hash : Option Bytes
  node_id : Option Nat
  is_recursive : Bool
deriving DecidableEq, Repr

/-- One callback invocation crossing the boundary, covering every callback
record shape in ffi.rs.  Document entries and events carry abstract ids (their
payload conversion does not affect the claims). -/
inductive CbEvent
  | onSuccessStr (ticket : TicketStr)
  | onSuccessBytes (bytes : Bytes)
  | onSuccessNode (node : IrohNode)
  | onSuccessInfo (nodeId : Nat) (relayUrl : Option Nat) (isConnected : Bool)
  | onSuccessAuthor (secret : Bytes) (id : Bytes)
  | onSuccessDoc (namespaceId : Nat)
  | onSuccessHash (hash : Bytes)
  | onSuccessEntry (entry : Option Nat)
  | onSuccessCount (count : Nat)
  | onSuccessShare (ticket : DocTicketStr)
  | onEntry (entry : Nat)
  | onEvent (event : Nat)
  | onProgress (downloaded total : Nat)
  | onComplete
  | onTicketComplete (info : TicketInfo)
  | onFailure (msg : String)
deriving DecidableEq

/-- Whether a callback is terminal for its operation: everything except the
streaming item/progress callbacks (spec §4.3). -/
def CbEvent.isTerminal : CbEvent → Bool
  | CbEvent.onEntry _ => false
  | CbEvent.onEvent _ => false
  | CbEvent.onProgress _ _ => false
  | _ => true

/-- Whether a callback is a failure callback. -/
def CbEvent.isFailureEv : CbEvent → Bool
  | CbEvent.onFailure _ => true
  | _ => false

/-- Modelled from the spec: one item of the external download progress stream
(`DownloadProgressItem` as matched in node.rs 245-262). -/
inductive DlProgressItem
  | progress (bytes : Nat)
  | partComplete
  | dlError (msg : String)
  | dlFailed
  | other
deriving DecidableEq

/-- The progress-processing loop of IrohNode::get_with_progress (node.rs
245-262): `Progress` items invoke the progress callback with total 0,
`PartComplete` and other items are skipped, and an error item aborts the loop
with the corresponding error (progress callbacks already delivered stay
delivered). -/
def progressLoop : List DlProgressItem → List CbEvent × Option String
  | [] => ([], none)
  | DlProgressItem.progress b :: rest =>
    (CbEvent.onProgress b 0 :: (progressLoop rest).1, (progressLoop rest).2)
  | DlProgressItem.partComplete :: rest => progressLoop rest
  | DlProgressItem.other :: rest => progressLoop rest
  | DlProgressItem.dlError msg :: _ => ([], some ("Download error: " ++ msg))
  | DlProgressItem.dlFailed :: _ => ([], some "Download failed")

/-- IrohNode::get_with_progress (node.rs 226-273): parse the ticket, start the
download (outcome `startRes`), process the progress stream, then read the
bytes from the local store.  Returns the progress callbacks delivered and the
final result. -/
def IrohNode.get_with_progress (n : IrohNode) (ticketStr : TicketStr)
    (startRes : Except String Unit) (stream : List DlProgressItem) :
    List CbEvent × Except String Bytes :=
  match parseBlobTicket ticketStr with
  | none => ([], Except.error "Failed to parse ticket")
  | some t =>
    match startRes with
    | Except.error e => ([], Except.error ("Failed to start download: " ++ e))
    | Except.ok _ =>
      match (progressLoop stream).2 with
      | some e => ((progressLoop stream).1, Except.error e)
      | none =>
        match storeLookup n.store t.hash with
        | some b => ((progressLoop stream).1, Except.ok b)
        | none =>
          ((progressLoop stream).1, Except.error "Failed to read bytes from store")

/-- DocWrapper (ffi.rs 102-106): a document handle owns the doc plus a
non-owning back-reference to its node. -/
structure DocWrapper where
  node : IrohNode

/-- SubscriptionWrapper (ffi.rs 163-165): the one-shot cancellation sender
held in an option-like slot.  The heap slot is modelled as reachable through
the handle; deallocation is a memory-level concern outside the embedding. -/
structure SubscriptionWrapper where
  cancel_tx : Option Unit

/-- The heap slot a subscription handle points at: still live (the wrapper Box
is allocated) or freed because a previous cancel call reconstructed and
dropped the Box. -/
inductive SubSlot
  | live (w : SubscriptionWrapper)
  | freed

/-- Hex digit characters as produced by the external `hex::encode`
(lowercase). -/
def hexDigitChar (n : Nat) : Char :=
  if n < 10 then Char.ofNat (48 + n) else Char.ofNat (87 + n)

/-- Modelled from the spec: `hex::encode`, two lowercase hex characters per
byte, high nibble first. -/
def hexEncode (bs : Bytes) : List Char :=
  bs.flatMap fun b => [hexDigitChar (b / 16), hexDigitChar (b % 16)]

/-- Value of one hex character (`0-9`, `a-f`, `A-F`), as accepted by the
external `hex::decode`. -/
def hexVal (c : Char) : Option Nat :=
  if 48 ≤ c.toNat ∧ c.toNat ≤ 57 then some (c.toNat - 48)
  else if 97 ≤ c.toNat ∧ c.toNat ≤ 102 then some (c.toNat - 87)
  else if 65 ≤ c.toNat ∧ c.toNat ≤ 70 then some (c.toNat - 55)
  else none

/-- Modelled from the spec: `hex::decode` — fails on odd length or any
non-hex character, otherwise returns one byte per character pair. -/
def hexDecode : List Char → Option Bytes
  | [] => some []
  | [_] => none
  | c1 :: c2 :: rest =>
    match hexVal c1, hexVal c2, hexDecode rest with
    | some hi, some lo, some bs => some ((16 * hi + lo) :: bs)
    | _, _, _ => none

/-- Modelled from the spec: `id_from_secret(secret) -> id (pure, no I/O)` —
the external signing crate's public-key derivation
(`Author::from_bytes(..).id()`).  A fixed pure function of the secret bytes
stands in for the derivation; the claims depend only on it being
deterministic and pure. -/
def authorIdFromSecret (secret : Bytes) : Bytes :=
  secret.map fun b => (b + 1) % 256

-- ============================================================================
-- FFI exports (ffi.rs), as callback-trace functions.  Each returns the list
-- of callback invocations in order and, where relevant, whether the native
-- operation behind the boundary was attempted.
-- ============================================================================

/-- iroh_node_create (ffi.rs 421-472): a null or non-UTF-8 storage path and a
non-UTF-8 custom relay url are usage errors reported before construction;
otherwise the native `IrohNode::new` outcome (`createRes`) is reported, the
created node handle on success. -/
def iroh_node_create (storagePath : Option (CStrArg Nat)) (_relayEnabled : Bool)
    (customRelayUrl : Option (CStrArg Nat)) (_docsEnabled : Bool)
    (createRes : Except String IrohNode) : List CbEvent :=
  match storagePath with
  | none => [CbEvent.onFailure "storage_path cannot be null"]
  | some CStrArg.invalidUtf8 => [CbEvent.onFailure "Invalid storage path"]
  | some (CStrArg.utf8 _) =>
    match customRelayUrl with
    | some CStrArg.invalidUtf8 => [CbEvent.onFailure "Invalid custom relay URL"]
    | _ =>
      match createRes with
      | Except.ok node => [CbEvent.onSuccessNode node]
      | Except.error e => [CbEvent.onFailure e]

/-- iroh_node_destroy (ffi.rs 482-493): null is a no-op; otherwise the node is
consumed and shut down, teardown errors swallowed, no callbacks. -/
def iroh_node_destroy (handle : Option IrohNode) : List CbEvent × Bool :=
  match handle with
  | none => ([], false)
  | some _ => ([], true)

/-- iroh_node_close (ffi.rs 801-817): null invokes `on_complete` and attempts
nothing; otherwise the node is consumed, shut down, and the outcome reported.
`shutdownRes` is the outcome of the external router shutdown. -/
def iroh_node_close (handle : Option IrohNode) (shutdownRes : Except String Unit) :
    List CbEvent × Bool :=
  match handle with
  | none => ([CbEvent.onComplete], false)
  | some _ =>
    match shutdownRes with
    | Except.ok _ => ([CbEvent.onComplete], true)
    | Except.error e =>
      ([CbEvent.onFailure ("Failed to shutdown router: " ++ e)], true)

/-- iroh_put (ffi.rs 506-539): null handle is a usage error; a null or empty
buffer is treated as empty bytes; otherwise the blocking put runs and its
result is reported.  `io` is the outcome of the external store action. -/
def iroh_put (handle : Option IrohNode) (bytes : Option Bytes)
    (io : Except String Unit) : List CbEvent × Bool :=
  match handle with
  | none => ([CbEvent.onFailure "handle cannot be null"], false)
  | some n =>
    match (n.put (bytes.getD []) io).2 with
    | Except.ok t => ([CbEvent.onSuccessStr t], true)
    | Except.error e => ([CbEvent.onFailure e], true)

/-- iroh_get (ffi.rs 548-595): null handle, null ticket, and invalid UTF-8 are
usage errors reported before any native work; otherwise the blocking get runs
and its result is reported. -/
def iroh_get (handle : Option IrohNode) (ticket : Option (CStrArg TicketStr)) :
    List CbEvent × Bool :=
  match handle with
  | none => ([CbEvent.onFailure "handle cannot be null"], false)
  | some n =>
    match ticket with
    | none => ([CbEvent.onFailure "ticket cannot be null"], false)
    | some CStrArg.invalidUtf8 => ([CbEvent.onFailure "Invalid ticket string"], false)
    | some (CStrArg.utf8 ts) =>
      match (n.get ts).2 with
      | Except.ok b => ([CbEvent.onSuccessBytes b], true)
      | Except.error e => ([CbEvent.onFailure e], true)

/-- iroh_get_with_progress (ffi.rs 641-694): null handle, null ticket, and
invalid UTF-8 are usage errors reported before any native work; otherwise the
blocking progress-reporting get runs, its progress callbacks are delivered as
they arrive, and the final result is reported through the terminal callback. -/
def iroh_get_with_progress (handle : Option IrohNode)
    (ticket : Option (CStrArg TicketStr)) (startRes : Except String Unit)
    (stream : List DlProgressItem) : List CbEvent × Bool :=
  match handle with
  | none => ([CbEvent.onFailure "handle cannot be null"], false)
  | some n =>
    match ticket with
    | none => ([CbEvent.onFailure "ticket cannot be null"], false)
    | some CStrArg.invalidUtf8 => ([CbEvent.onFailure "Invalid ticket string"], false)
    | some (CStrArg.utf8 ts) =>
      match (n.get_with_progress ts startRes stream).2 with
      | Except.ok b =>
        ((n.get_with_progress ts startRes stream).1 ++ [CbEvent.onSuccessBytes b],
          true)
      | Except.error e =>
        ((n.get_with_progress ts startRes stream).1 ++ [CbEvent.onFailure e], true)

/-- iroh_put_with_options (ffi.rs 826-858): like `iroh_put` but via
`IrohNode.put_with_timeout` with the supplied `timeout_ms`. -/
def iroh_put_with_options (handle : Option IrohNode) (bytes : Option Bytes)
    (timeout_ms : Nat) (io : Except String Unit) (delay : Nat) :
    List CbEvent × Bool :=
  match handle with
  | none => ([CbEvent.onFailure "handle cannot be null"], false)
  | some n =>
    match (n.put_with_timeout (bytes.getD []) timeout_ms io delay).2 with
    | Except.ok t => ([CbEvent.onSuccessStr t], true)
    | Except.error e => ([CbEvent.onFailure e], true)

/-- iroh_get_with_options (ffi.rs 867-913): like `iroh_get` but via
`IrohNode.get_with_timeout` with the supplied `timeout_ms`. -/
def iroh_get_with_options (handle : Option IrohNode)
    (ticket : Option (CStrArg TicketStr)) (timeout_ms : Nat) (delay : Nat) :
    List CbEvent × Bool :=
  match handle with
  | none => ([CbEvent.onFailure "handle cannot be null"], false)
  | some n =>
    match ticket with
    | none => ([CbEvent.onFailure "ticket cannot be null"], false)
    | some CStrArg.invalidUtf8 => ([CbEvent.onFailure "Invalid ticket string"], false)
    | some (CStrArg.utf8 ts) =>
      match (n.get_with_timeout ts timeout_ms delay).2 with
      | Except.ok b => ([CbEvent.onSuccessBytes b], true)
      | Except.error e => ([CbEvent.onFailure e], true)

/-- iroh_node_info (ffi.rs 702-731).  `infoRes` is the outcome of the native
info query: node id, optional relay url, connectedness. -/
def iroh_node_info (handle : Option IrohNode)
    (infoRes : Except String (Nat × Option Nat × Bool)) : List CbEvent × Bool :=
  match handle with
  | none => ([CbEvent.onFailure "handle cannot be null"], false)
  | some _ =>
    match infoRes with
    | Except.ok i => ([CbEvent.onSuccessInfo i.1 i.2.1 i.2.2], true)
    | Except.error e => ([CbEvent.onFailure e], true)

/-- Validation result built by iroh_validate_ticket (ffi.rs 745-782): a null
pointer, invalid UTF-8, or an unparsable string yield the all-invalid record;
a parsable ticket yields its hash, node id, and recursive flag. -/
def validateTicketInfo (ticket : Option (CStrArg TicketStr)) : TicketInfo :=
  match ticket with
  | none => ⟨false, none, none, false⟩
  | some CStrArg.invalidUtf8 => ⟨false, none, none, false⟩
  | some (CStrArg.utf8 ts) =>
    match parseBlobTicket ts with
    | some t => ⟨true, some t.hash, some t.nodeId, t.recursive⟩
    | none => ⟨false, none, none, false⟩

/-- iroh_validate_ticket (ffi.rs 741-785): always invokes the single
`on_complete` callback with the validation record. -/
def iroh_validate_ticket (ticket : Option (CStrArg TicketStr)) : List CbEvent :=
  [CbEvent.onTicketComplete (validateTicketInfo ticket)]

/-- Whether a ticket argument parses as a blob ticket (the condition under
which validation reports `is_valid`). -/
def ticketParses (ticket : Option (CStrArg TicketStr)) : Bool :=
  match ticket with
  | some (CStrArg.utf8 ts) => (parseBlobTicket ts).isSome
  | _ => false

/-- iroh_author_create (ffi.rs 927-943): reports the freshly generated secret
(supplied by the external RNG) and its derived id. -/
def iroh_author_create (secret : Bytes) : List CbEvent :=
  [CbEvent.onSuccessAuthor secret (authorIdFromSecret secret)]

/-- iroh_author_id_from_secret (ffi.rs 953-961): pure derivation of the public
id from the secret. -/
def iroh_author_id_from_secret (secret : Bytes) : Bytes :=
  authorIdFromSecret secret

/-- iroh_author_secret_to_hex (ffi.rs 1033-1036). -/
def iroh_author_secret_to_hex (secret : Bytes) : List Char :=
  hexEncode secret

/-- iroh_author_id_to_hex (ffi.rs 1043-1046). -/
def iroh_author_id_to_hex (id : Bytes) : List Char :=
  hexEncode id

/-- iroh_author_from_hex (ffi.rs 971-1024): null and invalid UTF-8 are usage
errors; the hex must decode to exactly 32 bytes; on success the secret and its
derived id are reported. -/
def iroh_author_from_hex (secretHex : Option (CStrArg (List Char))) : List CbEvent :=
  match secretHex with
  | none => [CbEvent.onFailure "secret_hex cannot be null"]
  | some CStrArg.invalidUtf8 => [CbEvent.onFailure "Invalid UTF-8 in secret_hex"]
  | some (CStrArg.utf8 cs) =>
    match hexDecode cs with
    | some bs =>
      if bs.length = 32 then
        [CbEvent.onSuccessAuthor bs (authorIdFromSecret bs)]
      else
        [CbEvent.onFailure "Invalid secret length: expected 32 bytes"]
    | none => [CbEvent.onFailure "Invalid hex string"]

/-- iroh_author_import (ffi.rs 1057-1091): null handle is a usage error, a
node without the Docs engine is a usage error; otherwise the native import
outcome is reported through the close-style callback. -/
def iroh_author_import (handle : Option IrohNode) (_secret : Bytes)
    (importRes : Except String Unit) : List CbEvent × Bool :=
  match handle with
  | none => ([CbEvent.onFailure "handle cannot be null"], false)
  | some n =>
    match n.docs with
    | none => ([CbEvent.onFailure "docs not enabled on this node"], false)
    | some _ =>
      match importRes with
      | Except.ok _ => ([CbEvent.onComplete], true)
      | Except.error e => ([CbEvent.onFailure e], true)

/-- iroh_doc_create (ffi.rs 1103-1140): null handle and docs-disabled are
usage errors checked before the native call; `createRes` is the outcome of the
native document creation (namespace id on success). -/
def iroh_doc_create (handle : Option IrohNode) (createRes : Except String Nat) :
    List CbEvent × Bool :=
  match handle with
  | none => ([CbEvent.onFailure "handle cannot be null"], false)
  | some n =>
    match n.docs with
    | none => ([CbEvent.onFailure "docs not enabled on this node"], false)
    | some _ =>
      match createRes with
      | Except.ok ns => ([CbEvent.onSuccessDoc ns], true)
      | Except.error e => ([CbEvent.onFailure e], true)

/-- iroh_doc_join (ffi.rs 1149-1213): null handle, null ticket, invalid UTF-8,
and an unparsable doc ticket are usage errors; the docs-disabled guard runs
after ticket parsing; `importRes` is the outcome of the native import. -/
def iroh_doc_join (handle : Option IrohNode)
    (ticket : Option (CStrArg DocTicketStr)) (importRes : Except String Nat) :
    List CbEvent × Bool :=
  match handle with
  | none => ([CbEvent.onFailure "handle cannot be null"], false)
  | some n =>
    match ticket with
    | none => ([CbEvent.onFailure "ticket cannot be null"], false)
    | some CStrArg.invalidUtf8 => ([CbEvent.onFailure "Invalid ticket UTF-8"], false)
    | some (CStrArg.utf8 ts) =>
      match parseDocTicket ts with
      | none => ([CbEvent.onFailure "Invalid doc ticket"], false)
      | some _ =>
        match n.docs with
        | none => ([CbEvent.onFailure "docs not enabled on this node"], false)
        | some _ =>
          match importRes with
          | Except.ok ns => ([CbEvent.onSuccessDoc ns], true)
          | Except.error e => ([CbEvent.onFailure e], true)

/-- iroh_doc_set (ffi.rs 1223-1271): null doc handle is a usage error; null or
empty key/value buffers are treated as empty; `setRes` is the outcome of the
native set (content hash on success). -/
def iroh_doc_set (docHandle : Option DocWrapper) (_authorSecret : Bytes)
    (_key _value : Option Bytes) (setRes : Except String Bytes) :
    List CbEvent × Bool :=
  match docHandle with
  | none => ([CbEvent.onFailure "doc_handle cannot be null"], false)
  | some _ =>
    match setRes with
    | Except.ok h => ([CbEvent.onSuccessHash h], true)
    | Except.error e => ([CbEvent.onFailure e], true)

/-- iroh_doc_get (ffi.rs 1280-1325): null doc handle is a usage error;
`getRes` is the outcome of the native exact-key query (`none` when the key has
no entry, which is reported as a null-entry success). -/
def iroh_doc_get (docHandle : Option DocWrapper) (_key : Option Bytes)
    (getRes : Except String (Option Nat)) : List CbEvent × Bool :=
  match docHandle with
  | none => ([CbEvent.onFailure "doc_handle cannot be null"], false)
  | some _ =>
    match getRes with
    | Except.ok e => ([CbEvent.onSuccessEntry e], true)
    | Except.error e => ([CbEvent.onFailure e], true)

/-- iroh_doc_del (ffi.rs 1397-1433): null doc handle is a usage error;
`delRes` is the outcome of the native delete (tombstone count on success). -/
def iroh_doc_del (docHandle : Option DocWrapper) (_authorSecret : Bytes)
    (_key : Option Bytes) (delRes : Except String Nat) : List CbEvent × Bool :=
  match docHandle with
  | none => ([CbEvent.onFailure "doc_handle cannot be null"], false)
  | some _ =>
    match delRes with
    | Except.ok c => ([CbEvent.onSuccessCount c], true)
    | Except.error e => ([CbEvent.onFailure e], true)

/-- iroh_doc_share (ffi.rs 1505-1538): null doc handle is a usage error;
`shareRes` is the outcome of the native share (doc ticket on success). -/
def iroh_doc_share (docHandle : Option DocWrapper) (_modeWrite : Bool)
    (shareRes : Except String DocTicketStr) : List CbEvent × Bool :=
  match docHandle with
  | none => ([CbEvent.onFailure "doc_handle cannot be null"], false)
  | some _ =>
    match shareRes with
    | Except.ok t => ([CbEvent.onSuccessShare t], true)
    | Except.error e => ([CbEvent.onFailure e], true)

/-- iroh_doc_close (ffi.rs 1546-1555): null is a no-op; otherwise the wrapper
is consumed and dropped, with no callbacks. -/
def iroh_doc_close (docHandle : Option DocWrapper) : List CbEvent × Bool :=
  match docHandle with
  | none => ([], false)
  | some _ => ([], true)

/-- iroh_doc_read_content (ffi.rs 1444-1497): null handle, null hash, invalid
UTF-8, and an unparsable hash are usage errors; otherwise the blob store is
read directly — there is no docs-enabled check on this path. -/
def iroh_doc_read_content (handle : Option IrohNode)
    (contentHash : Option (CStrArg HashStr)) : List CbEvent × Bool :=
  match handle with
  | none => ([CbEvent.onFailure "handle cannot be null"], false)
  | some n =>
    match contentHash with
    | none => ([CbEvent.onFailure "content_hash cannot be null"], false)
    | some CStrArg.invalidUtf8 => ([CbEvent.onFailure "Invalid hash UTF-8"], false)
    | some (CStrArg.utf8 hs) =>
      match parseHash hs with
      | none => ([CbEvent.onFailure "Invalid hash"], false)
      | some h =>
        match storeLookup n.store h with
        | some b => ([CbEvent.onSuccessBytes b], true)
        | none => ([CbEvent.onFailure "Failed to read bytes from store"], true)

/-- The streaming loop of iroh_doc_get_many (ffi.rs 1360-1387): one `on_entry`
per successful item in delivery order, then `on_complete`; an item error ends
the stream with `on_failure` and nothing after it. -/
def getManyLoop : List (Except String Nat) → List CbEvent
  | [] => [CbEvent.onComplete]
  | Except.ok e :: rest => CbEvent.onEntry e :: getManyLoop rest
  | Except.error msg :: _ => [CbEvent.onFailure msg]

/-- iroh_doc_get_many (ffi.rs 1337-1388): null doc handle is a usage error;
otherwise the native query stream (`items`) is drained through the streaming
loop. -/
def iroh_doc_get_many (docHandle : Option DocWrapper) (_pref : Option Bytes)
    (items : List (Except String Nat)) : List CbEvent × Bool :=
  match docHandle with
  | none => ([CbEvent.onFailure "doc_handle cannot be null"], false)
  | some _ => (getManyLoop items, true)

/-- Decrement an optional countdown (the remaining events before the one-shot
cancellation signal becomes ready). -/
def optPred : Option Nat → Option Nat
  | none => none
  | some k => some (k - 1)

/-- The subscription task loop of iroh_doc_subscribe (ffi.rs 1682-1710): each
iteration races the one-shot cancellation signal against the next stream item
(`tokio::select!`).  `cancelAt = some k` means the signal becomes ready after
`k` more items; `none` means it never fires.  Cancellation and stream end both
report `on_complete`; an item error reports `on_failure`; the task then exits,
delivering nothing further. -/
def subscribeLoop (items : List (Except String Nat)) (cancelAt : Option Nat) :
    List CbEvent :=
  match cancelAt with
  | some 0 => [CbEvent.onComplete]
  | _ =>
    match items with
    | [] => [CbEvent.onComplete]
    | Except.ok e :: rest => CbEvent.onEvent e :: subscribeLoop rest (optPred cancelAt)
    | Except.error msg :: _ => [CbEvent.onFailure msg]

/-- The whole spawned subscription task (ffi.rs 1667-1710): if the initial
`doc.subscribe()` fails the failure is reported at once; otherwise the loop
runs. -/
def subscribeTaskTrace (subRes : Except String Unit)
    (items : List (Except String Nat)) (cancelAt : Option Nat) : List CbEvent :=
  match subRes with
  | Except.error e => [CbEvent.onFailure e]
  | Except.ok _ => subscribeLoop items cancelAt

/-- iroh_doc_subscribe (ffi.rs 1635-1717): null doc handle reports a usage
error and returns a null subscription handle; otherwise the task is spawned
and a handle pointing at a live wrapper slot holding the one-shot cancellation
sender is returned. -/
def iroh_doc_subscribe (docHandle : Option DocWrapper)
    (subRes : Except String Unit) (items : List (Except String Nat))
    (cancelAt : Option Nat) : List CbEvent × Option SubSlot :=
  match docHandle with
  | none => ([CbEvent.onFailure "doc_handle cannot be null"], none)
  | some _ =>
    (subscribeTaskTrace subRes items cancelAt, some (SubSlot.live ⟨some ()⟩))

/-- iroh_subscription_cancel (ffi.rs 1727-1739): null is a defined no-op.  For
a non-null handle, `Box::from_raw` reconstructs the wrapper from the raw
pointer, the sender is taken out of its option slot and the signal sent only
if still present, and the Box is dropped when the call returns — freeing the
slot.  A call whose handle points at an already-freed slot reconstructs freed
memory, which is undefined behavior, modelled as `none`.  A defined call
returns the slot state seen through the handle afterwards and the number of
cancellation signals the call sent. -/
def iroh_subscription_cancel : Option SubSlot → Option (Option SubSlot × Nat)
  | none => some (none, 0)
  | some (SubSlot.live w) =>
    match w.cancel_tx with
    | some _ => some (some SubSlot.freed, 1)
    | none => some (some SubSlot.freed, 0)
  | some SubSlot.freed => none

/-- iroh_blob_tag_set (ffi.rs 1851-1928): null handle, null tag name, and null
hash are usage errors (null checks precede the UTF-8 checks), as are invalid
UTF-8 and an unparsable hash; otherwise the native tag-set outcome (`setRes`)
is reported through the close-style callback. -/
def iroh_blob_tag_set (handle : Option IrohNode) (tagName : Option (CStrArg Nat))
    (hashStr : Option (CStrArg HashStr)) (_format : BlobFormat)
    (setRes : Except String Unit) : List CbEvent × Bool :=
  match handle with
  | none => ([CbEvent.onFailure "handle cannot be null"], false)
  | some _ =>
    match tagName with
    | none => ([CbEvent.onFailure "tag_name cannot be null"], false)
    | some tn =>
      match hashStr with
      | none => ([CbEvent.onFailure "hash_str cannot be null"], false)
      | some hstr =>
        match tn with
        | CStrArg.invalidUtf8 => ([CbEvent.onFailure "Invalid tag_name UTF-8"], false)
        | CStrArg.utf8 _ =>
          match hstr with
          | CStrArg.invalidUtf8 => ([CbEvent.onFailure "Invalid hash UTF-8"], false)
          | CStrArg.utf8 hs =>
            match parseHash hs with
            | none => ([CbEvent.onFailure "Invalid hash"], false)
            | some _ =>
              match setRes with
              | Except.ok _ => ([CbEvent.onComplete], true)
              | Except.error e => ([CbEvent.onFailure e], true)

/-- iroh_blob_ticket_create (ffi.rs 1940-1989): null handle and null hash are
usage errors, as are invalid UTF-8 and an unparsable hash; otherwise a ticket
naming this node as provider is built from the endpoint address and reported
through `on_success`. -/
def iroh_blob_ticket_create (handle : Option IrohNode)
    (hashStr : Option (CStrArg HashStr)) (format : BlobFormat) :
    List CbEvent × Bool :=
  match handle with
  | none => ([CbEvent.onFailure "handle cannot be null"], false)
  | some n =>
    match hashStr with
    | none => ([CbEvent.onFailure "hash_str cannot be null"], false)
    | some CStrArg.invalidUtf8 => ([CbEvent.onFailure "Invalid hash UTF-8"], false)
    | some (CStrArg.utf8 hs) =>
      match parseHash hs with
      | none => ([CbEvent.onFailure "Invalid hash"], false)
      | some h =>
        ([CbEvent.onSuccessStr (ticketToString ⟨n.nodeId, h, format⟩)], true)

/-- iroh_blob_tag_delete (ffi.rs 1998-2039): null handle and null tag name are
usage errors, as is invalid UTF-8; otherwise the native tag-delete outcome
(`delRes`) is reported through the close-style callback. -/
def iroh_blob_tag_delete (handle : Option IrohNode)
    (tagName : Option (CStrArg Nat)) (delRes : Except String Unit) :
    List CbEvent × Bool :=
  match handle with
  | none => ([CbEvent.onFailure "handle cannot be null"], false)
  | some _ =>
    match tagName with
    | none => ([CbEvent.onFailure "tag_name cannot be null"], false)
    | some CStrArg.invalidUtf8 => ([CbEvent.onFailure "Invalid tag_name UTF-8"], false)
    | some (CStrArg.utf8 _) =>
      match delRes with
      | Except.ok _ => ([CbEvent.onComplete], true)
      | Except.error e => ([CbEvent.onFailure e], true)

-- ============================================================================
-- Derived notions used by the claims.
-- ============================================================================

/-- A callback trace is terminal-exclusive: it is a (possibly empty) run of
non-terminal callbacks followed by exactly one terminal callback, after which
nothing is delivered (spec §4.3). -/
def terminalOnce (tr : List CbEvent) : Prop :=
  ∃ pre tl, tr = pre ++ [tl] ∧ tl.isTerminal = true ∧ ∀ e ∈ pre, e.isTerminal = false

/-- Whether an external stream item is a successful item. -/
def exceptIsOk : Except String Nat → Bool
  | Except.ok _ => true
  | Except.error _ => false

/-- The item callbacks a list of stream items produces before any terminal. -/
def deliveredEvents (items : List (Except String Nat)) : List CbEvent :=
  items.filterMap fun x =>
    match x with
    | Except.ok e => some (CbEvent.onEvent e)
    | Except.error _ => none

/-- Whether a hex string decodes to exactly 32 bytes (the acceptance
condition of `iroh_author_from_hex`). -/
def decodesTo32 (cs : List Char) : Bool :=
  match hexDecode cs with
  | some bs => bs.length == 32
  | none => false

/-- A concrete docs-disabled node whose store holds the blob `[1]`. -/
def sampleNode : IrohNode :=
  { nodeId := 0, store := [([1], [1])], docs_enabled := false }

-- ============================================================================
-- Helper lemmas.
-- ============================================================================

/-- A single terminal callback is a terminal-exclusive trace. -/
theorem terminalOnce_singleton {e : CbEvent} (h : e.isTerminal = true) :
    terminalOnce [e] :=
  ⟨[], e, rfl, h, by simp⟩

/-- Prepending a non-terminal callback preserves terminal-exclusivity. -/
theorem terminalOnce_cons {e : CbEvent} {tr : List CbEvent}
    (he : e.isTerminal = false) (h : terminalOnce tr) : terminalOnce (e :: tr) := by
  obtain ⟨pre, tl, rfl, htl, hpre⟩ := h
  refine ⟨e :: pre, tl, rfl, htl, ?_⟩
  intro x hx
  rcases List.mem_cons.mp hx with h1 | h2
  · subst h1; exact he
  · exact hpre x h2

/-- A run of non-terminal callbacks followed by one terminal callback is a
terminal-exclusive trace. -/
theorem terminalOnce_append {pre : List CbEvent} {t : CbEvent}
    (hpre : ∀ e ∈ pre, e.isTerminal = false) (ht : t.isTerminal = true) :
    terminalOnce (pre ++ [t]) :=
  ⟨pre, t, rfl, ht, hpre⟩

/-- Every callback the progress loop delivers is a non-terminal progress
callback. -/
theorem progressLoop_nonterminal (stream : List DlProgressItem) :
    ∀ e ∈ (progressLoop stream).1, e.isTerminal = false := by
  induction stream with
  | nil => simp [progressLoop]
  | cons x rest ih =>
    cases x with
    | progress b =>
      intro e he
      rcases List.mem_cons.mp he with h | h
      · subst h; rfl
      · exact ih e h
    | partComplete => exact ih
    | other => exact ih
    | dlError msg => simp [progressLoop]
    | dlFailed => simp [progressLoop]

/-- Every callback delivered before the terminal one by
`IrohNode.get_with_progress` is a non-terminal progress callback. -/
theorem get_with_progress_nonterminal (n : IrohNode) (ts : TicketStr)
    (sr : Except String Unit) (st : List DlProgressItem) :
    ∀ e ∈ (n.get_with_progress ts sr st).1, e.isTerminal = false := by
  cases hp : parseBlobTicket ts with
  | none => simp [IrohNode.get_with_progress, hp]
  | some t =>
    cases sr with
    | error e => simp [IrohNode.get_with_progress, hp]
    | ok u =>
      cases hr : (progressLoop st).2 with
      | some e =>
        simp only [IrohNode.get_with_progress, hp, hr]
        exact progressLoop_nonterminal st
      | none =>
        cases hl : storeLookup n.store t.hash with
        | some b =>
          simp only [IrohNode.get_with_progress, hp, hr, hl]
          exact progressLoop_nonterminal st
        | none =>
          simp only [IrohNode.get_with_progress, hp, hr, hl]
          exact progressLoop_nonterminal st

/-- The get_many streaming loop always produces a terminal-exclusive trace. -/
theorem getManyLoop_terminalOnce (items : List (Except String Nat)) :
    terminalOnce (getManyLoop items) := by
  induction items with
  | nil => exact terminalOnce_singleton rfl
  | cons x rest ih =>
    cases x with
    | ok e => exact terminalOnce_cons rfl ih
    | error msg => exact terminalOnce_singleton rfl

/-- The subscription loop always produces a terminal-exclusive trace,
whatever the stream items and wherever the cancellation signal fires. -/
theorem subscribeLoop_terminalOnce (items : List (Except String Nat))
    (c : Option Nat) : terminalOnce (subscribeLoop items c) := by
  induction items generalizing c with
  | nil =>
    match c with
    | none => exact terminalOnce_singleton rfl
    | some 0 => exact terminalOnce_singleton rfl
    | some (k + 1) => exact terminalOnce_singleton rfl
  | cons x rest ih =>
    match c with
    | some 0 => exact terminalOnce_singleton rfl
    | none =>
      cases x with
      | ok e => exact terminalOnce_cons rfl (ih none)
      | error msg => exact terminalOnce_singleton rfl
    | some (k + 1) =>
      cases x with
      | ok e => exact terminalOnce_cons rfl (ih (some k))
      | error msg => exact terminalOnce_singleton rfl

/-- Every callback produced by `deliveredEvents` is a non-terminal item
callback. -/
theorem deliveredEvents_nonterminal (items : List (Except String Nat)) :
    ∀ e ∈ deliveredEvents items, e.isTerminal = false := by
  intro e he
  obtain ⟨a, _, ha⟩ := List.mem_filterMap.mp he
  cases a with
  | ok v =>
    simp only at ha
    cases ha
    rfl
  | error msg => simp at ha

/-- Hex digits survive the encode/decode pair. -/
theorem hexVal_hexDigitChar : ∀ n < 16, hexVal (hexDigitChar n) = some n := by
  decide

/-- The hex codec round-trips every byte sequence. -/
theorem hexDecode_hexEncode (bs : Bytes) (hb : ∀ b ∈ bs, b < 256) :
    hexDecode (hexEncode bs) = some bs := by
  induction bs with
  | nil => rfl
  | cons b rest ih =>
    have hb0 : b < 256 := hb b (by simp)
    have hrest : ∀ x ∈ rest, x < 256 := fun x hx => hb x (by simp [hx])
    have h1 : hexVal (hexDigitChar (b / 16)) = some (b / 16) :=
      hexVal_hexDigitChar _ (Nat.div_lt_of_lt_mul (by omega))
    have h2 : hexVal (hexDigitChar (b % 16)) = some (b % 16) :=
      hexVal_hexDigitChar _ (Nat.mod_lt _ (by norm_num))
    have henc : hexEncode (b :: rest) =
        hexDigitChar (b / 16) :: hexDigitChar (b % 16) :: hexEncode rest := by
      simp [hexEncode]
    rw [henc]
    simp only [hexDecode, h1, h2, ih hrest]
    have : 16 * (b / 16) + b % 16 = b := by omega
    rw [this]

/-- When the cancellation signal becomes ready after `k` successful items, the
subscription loop delivers exactly those item callbacks and then completes. -/
theorem subscribeLoop_cancel_first (items : List (Except String Nat)) (k : Nat)
    (hk : (items.take k).all exceptIsOk = true) :
    subscribeLoop items (some k) =
      deliveredEvents (items.take k) ++ [CbEvent.onComplete] := by
  induction items generalizing k with
  | nil => cases k <;> rfl
  | cons x rest ih =>
    cases k with
    | zero => rfl
    | succ k =>
      cases x with
      | ok e =>
        have hk' : (rest.take k).all exceptIsOk = true := by
          simpa [List.take_succ_cons, exceptIsOk] using hk
        simpa [subscribeLoop, optPred, deliveredEvents, List.take_succ_cons]
          using ih k hk'
      | error msg =>
        exfalso
        simp [List.take_succ_cons, exceptIsOk] at hk

-- ============================================================================
-- Claim theorems.
-- ============================================================================

/-- C1: for every byte sequence `b` (including the empty sequence) and every
node state, storing `b` with the node's put operation yields a ticket string
such that the node's get operation applied to that ticket returns exactly
`b`. -/
theorem put_get_roundtrip (n : IrohNode) (b : Bytes) :
    ∃ n' ts, n.put b (Except.ok ()) = (n', Except.ok ts) ∧
      (n'.get ts).2 = Except.ok b := by
  refine ⟨{ n with store := (hashOf b, b) :: n.store },
    ticketToString ⟨n.nodeId, hashOf b, BlobFormat.Raw⟩, rfl, ?_⟩
  simp [IrohNode.get, ticketToString, parseBlobTicket, downloadBlob,
    storeLookup, hashOf, List.find?]

/-- C3: the code does not implement the claimed cancellation idempotence.  On
the handle returned by subscribe (a live slot with the sender present) the
first cancel sends the one signal and frees the slot, because the call
reconstructs and drops the wrapper Box; the second cancel on the same handle
finds the freed slot and is undefined behavior (`Box::from_raw` of freed
memory followed by a second drop) — not a defined call that observes
"already sent" and performs no action. -/
theorem subscription_double_cancel_undefined :
    iroh_subscription_cancel (some (SubSlot.live ⟨some ()⟩)) =
      some (some SubSlot.freed, 1) ∧
    iroh_subscription_cancel (some SubSlot.freed) = none :=
  ⟨rfl, rfl⟩

/-- C4 counterexample: `iroh_node_close` with a null handle invokes
`on_complete` — not the failure callback with a usage error — so the claim
that every non-destroy operation reports a null handle through the failure
callback is false at this input. -/
theorem node_close_null_invokes_complete :
    iroh_node_close none (Except.ok ()) = ([CbEvent.onComplete], false) ∧
    (iroh_node_close none (Except.ok ())).1.any CbEvent.isFailureEv = false :=
  ⟨rfl, rfl⟩

/-- C4 amended: a null handle is reported as a usage error through the failure
callback, with no native operation attempted, by every exported
callback-bearing operation that takes a handle — put, get, get_with_progress,
the options variants, node_info, author_import, the document operations, and
the blob tag/ticket operations — except `iroh_node_close`, which treats a null
handle as a successful no-op (`on_complete`); the consuming operations without
callback records (`iroh_node_destroy`, `iroh_doc_close`,
`iroh_subscription_cancel`) treat a null handle as a silent no-op. -/
theorem null_handle_policy :
    (∀ b io, iroh_put none b io =
      ([CbEvent.onFailure "handle cannot be null"], false)) ∧
    (∀ t, iroh_get none t =
      ([CbEvent.onFailure "handle cannot be null"], false)) ∧
    (∀ t sr st, iroh_get_with_progress none t sr st =
      ([CbEvent.onFailure "handle cannot be null"], false)) ∧
    (∀ b tm io d, iroh_put_with_options none b tm io d =
      ([CbEvent.onFailure "handle cannot be null"], false)) ∧
    (∀ t tm d, iroh_get_with_options none t tm d =
      ([CbEvent.onFailure "handle cannot be null"], false)) ∧
    (∀ r, iroh_node_info none r =
      ([CbEvent.onFailure "handle cannot be null"], false)) ∧
    (∀ s r, iroh_author_import none s r =
      ([CbEvent.onFailure "handle cannot be null"], false)) ∧
    (∀ r, iroh_doc_create none r =
      ([CbEvent.onFailure "handle cannot be null"], false)) ∧
    (∀ t r, iroh_doc_join none t r =
      ([CbEvent.onFailure "handle cannot be null"], false)) ∧
    (∀ ch, iroh_doc_read_content none ch =
      ([CbEvent.onFailure "handle cannot be null"], false)) ∧
    (∀ s k v r, iroh_doc_set none s k v r =
      ([CbEvent.onFailure "doc_handle cannot be null"], false)) ∧
    (∀ k r, iroh_doc_get none k r =
      ([CbEvent.onFailure "doc_handle cannot be null"], false)) ∧
    (∀ s k r, iroh_doc_del none s k r =
      ([CbEvent.onFailure "doc_handle cannot be null"], false)) ∧
    (∀ m r, iroh_doc_share none m r =
      ([CbEvent.onFailure "doc_handle cannot be null"], false)) ∧
    (∀ p items, iroh_doc_get_many none p items =
      ([CbEvent.onFailure "doc_handle cannot be null"], false)) ∧
    (∀ sr items c, iroh_doc_subscribe none sr items c =
      ([CbEvent.onFailure "doc_handle cannot be null"], none)) ∧
    (∀ tn hs f r, iroh_blob_tag_set none tn hs f r =
      ([CbEvent.onFailure "handle cannot be null"], false)) ∧
    (∀ hs f, iroh_blob_ticket_create none hs f =
      ([CbEvent.onFailure "handle cannot be null"], false)) ∧
    (∀ tn r, iroh_blob_tag_delete none tn r =
      ([CbEvent.onFailure "handle cannot be null"], false)) ∧
    iroh_node_destroy none = ([], false) ∧
    (∀ r, iroh_node_close none r = ([CbEvent.onComplete], false)) ∧
    iroh_doc_close none = ([], false) ∧
    iroh_subscription_cancel none = some (none, 0) :=
  ⟨fun _ _ => rfl, fun _ => rfl, fun _ _ _ => rfl, fun _ _ _ _ => rfl,
    fun _ _ _ => rfl, fun _ => rfl, fun _ _ => rfl, fun _ => rfl,
    fun _ _ => rfl, fun _ => rfl, fun _ _ _ _ => rfl, fun _ _ => rfl,
    fun _ _ _ => rfl, fun _ _ => rfl, fun _ _ => rfl, fun _ _ _ => rfl,
    fun _ _ _ _ => rfl, fun _ _ => rfl, fun _ _ => rfl, rfl, fun _ => rfl,
    rfl, rfl⟩

/-- C5: for every input — null, invalid UTF-8, garbage, or a well-formed
ticket string — `iroh_validate_ticket` invokes its single always-completes
callback exactly once and never the failure path; `is_valid` holds exactly
when the input parses as a blob ticket, and for invalid inputs the hash and
node id are null and the recursive flag is false. -/
theorem validate_ticket_total (t : Option (CStrArg TicketStr)) :
    iroh_validate_ticket t = [CbEvent.onTicketComplete (validateTicketInfo t)] ∧
    (validateTicketInfo t).is_valid = ticketParses t ∧
    (ticketParses t = false → (validateTicketInfo t).hash = none ∧
      (validateTicketInfo t).node_id = none ∧
      (validateTicketInfo t).is_recursive = false) := by
  refine ⟨rfl, ?_, ?_⟩ <;>
  · cases t with
    | none => simp [validateTicketInfo, ticketParses]
    | some c =>
      cases c with
      | invalidUtf8 => simp [validateTicketInfo, ticketParses]
      | utf8 ts =>
        cases ts with
        | wellFormed bt => simp [validateTicketInfo, ticketParses, parseBlobTicket]
        | garbage i => simp [validateTicketInfo, ticketParses, parseBlobTicket]

/-- C5 witness: the theorem evaluated at a concrete garbage ticket string. -/
theorem validate_ticket_total_witness :
    iroh_validate_ticket (some (CStrArg.utf8 (TicketStr.garbage 0))) =
      [CbEvent.onTicketComplete
        (validateTicketInfo (some (CStrArg.utf8 (TicketStr.garbage 0))))] ∧
    (validateTicketInfo (some (CStrArg.utf8 (TicketStr.garbage 0)))).is_valid =
      ticketParses (some (CStrArg.utf8 (TicketStr.garbage 0))) ∧
    (ticketParses (some (CStrArg.utf8 (TicketStr.garbage 0))) = false →
      (validateTicketInfo (some (CStrArg.utf8 (TicketStr.garbage 0)))).hash = none ∧
      (validateTicketInfo (some (CStrArg.utf8 (TicketStr.garbage 0)))).node_id = none ∧
      (validateTicketInfo (some (CStrArg.utf8 (TicketStr.garbage 0)))).is_recursive = false) :=
  validate_ticket_total (some (CStrArg.utf8 (TicketStr.garbage 0)))

/-- C10: with `timeout_ms = 0` the timeout-bearing put and get variants apply
no timeout and behave identically to the plain variants, at the node level and
across the whole FFI callback path, for every handle, buffer, ticket, and
external outcome. -/
theorem zero_timeout_equals_plain :
    (∀ (n : IrohNode) (data : Bytes) (io : Except String Unit) (delay : Nat),
      n.put_with_timeout data 0 io delay = n.put data io) ∧
    (∀ (n : IrohNode) (ts : TicketStr) (delay : Nat),
      n.get_with_timeout ts 0 delay = n.get ts) ∧
    (∀ (handle : Option IrohNode) (bytes : Option Bytes)
      (io : Except String Unit) (delay : Nat),
      iroh_put_with_options handle bytes 0 io delay = iroh_put handle bytes io) ∧
    (∀ (handle : Option IrohNode) (ticket : Option (CStrArg TicketStr))
      (delay : Nat),
      iroh_get_with_options handle ticket 0 delay = iroh_get handle ticket) := by
  refine ⟨fun n data io delay => rfl, fun n ts delay => rfl, ?_, ?_⟩
  · intro handle bytes io delay
    cases handle <;> rfl
  · intro handle ticket delay
    cases handle with
    | none => rfl
    | some n =>
      cases ticket with
      | none => rfl
      | some c => cases c <;> rfl

/-- C2: every exported callback-bearing operation, across all argument shapes
and all outcomes of its external actions (invalid arguments, native success or
failure, stream end or stream error, cancellation), delivers a
terminal-exclusive callback trace: exactly one terminal callback, preceded
only by non-terminal item/progress callbacks, with nothing after it. -/
theorem terminal_callback_exclusive :
    (∀ sp re cu de r, terminalOnce (iroh_node_create sp re cu de r)) ∧
    (∀ h b io, terminalOnce (iroh_put h b io).1) ∧
    (∀ h t, terminalOnce (iroh_get h t).1) ∧
    (∀ h t sr st, terminalOnce (iroh_get_with_progress h t sr st).1) ∧
    (∀ h b tm io d, terminalOnce (iroh_put_with_options h b tm io d).1) ∧
    (∀ h t tm d, terminalOnce (iroh_get_with_options h t tm d).1) ∧
    (∀ h r, terminalOnce (iroh_node_info h r).1) ∧
    (∀ h r, terminalOnce (iroh_node_close h r).1) ∧
    (∀ t, terminalOnce (iroh_validate_ticket t)) ∧
    (∀ s, terminalOnce (iroh_author_create s)) ∧
    (∀ s, terminalOnce (iroh_author_from_hex s)) ∧
    (∀ h s r, terminalOnce (iroh_author_import h s r).1) ∧
    (∀ h r, terminalOnce (iroh_doc_create h r).1) ∧
    (∀ h t r, terminalOnce (iroh_doc_join h t r).1) ∧
    (∀ dh s k v r, terminalOnce (iroh_doc_set dh s k v r).1) ∧
    (∀ dh k r, terminalOnce (iroh_doc_get dh k r).1) ∧
    (∀ dh s k r, terminalOnce (iroh_doc_del dh s k r).1) ∧
    (∀ dh m r, terminalOnce (iroh_doc_share dh m r).1) ∧
    (∀ h ch, terminalOnce (iroh_doc_read_content h ch).1) ∧
    (∀ dh p items, terminalOnce (iroh_doc_get_many dh p items).1) ∧
    (∀ dh sr items c, terminalOnce (iroh_doc_subscribe dh sr items c).1) ∧
    (∀ h tn hs f r, terminalOnce (iroh_blob_tag_set h tn hs f r).1) ∧
    (∀ h hs f, terminalOnce (iroh_blob_ticket_create h hs f).1) ∧
    (∀ h tn r, terminalOnce (iroh_blob_tag_delete h tn r).1) := by
  refine ⟨?_, ?_, ?_, ?_, ?_, ?_, ?_, ?_, ?_, ?_, ?_, ?_, ?_, ?_, ?_, ?_, ?_,
    ?_, ?_, ?_, ?_, ?_, ?_, ?_⟩
  · intro sp re cu de r
    cases sp with
    | none => exact terminalOnce_singleton rfl
    | some pc =>
      cases pc with
      | invalidUtf8 => exact terminalOnce_singleton rfl
      | utf8 p =>
        cases cu with
        | none => cases r <;> exact terminalOnce_singleton rfl
        | some uc =>
          cases uc with
          | invalidUtf8 => exact terminalOnce_singleton rfl
          | utf8 u => cases r <;> exact terminalOnce_singleton rfl
  · intro h b io
    cases h with
    | none => exact terminalOnce_singleton rfl
    | some n =>
      cases hres : (n.put (b.getD []) io).2 with
      | ok t =>
        simp only [iroh_put, hres]
        exact terminalOnce_singleton rfl
      | error e =>
        simp only [iroh_put, hres]
        exact terminalOnce_singleton rfl
  · intro h t
    cases h with
    | none => exact terminalOnce_singleton rfl
    | some n =>
      cases t with
      | none => exact terminalOnce_singleton rfl
      | some c =>
        cases c with
        | invalidUtf8 => exact terminalOnce_singleton rfl
        | utf8 ts =>
          cases hres : (n.get ts).2 with
          | ok bs =>
            simp only [iroh_get, hres]
            exact terminalOnce_singleton rfl
          | error e =>
            simp only [iroh_get, hres]
            exact terminalOnce_singleton rfl
  · intro h t sr st
    cases h with
    | none => exact terminalOnce_singleton rfl
    | some n =>
      cases t with
      | none => exact terminalOnce_singleton rfl
      | some c =>
        cases c with
        | invalidUtf8 => exact terminalOnce_singleton rfl
        | utf8 ts =>
          cases hres : (n.get_with_progress ts sr st).2 with
          | ok b =>
            simp only [iroh_get_with_progress, hres]
            exact terminalOnce_append
              (get_with_progress_nonterminal n ts sr st) rfl
          | error e =>
            simp only [iroh_get_with_progress, hres]
            exact terminalOnce_append
              (get_with_progress_nonterminal n ts sr st) rfl
  · intro h b tm io d
    cases h with
    | none => exact terminalOnce_singleton rfl
    | some n =>
      cases hres : (n.put_with_timeout (b.getD []) tm io d).2 with
      | ok t =>
        simp only [iroh_put_with_options, hres]
        exact terminalOnce_singleton rfl
      | error e =>
        simp only [iroh_put_with_options, hres]
        exact terminalOnce_singleton rfl
  · intro h t tm d
    cases h with
    | none => exact terminalOnce_singleton rfl
    | some n =>
      cases t with
      | none => exact terminalOnce_singleton rfl
      | some c =>
        cases c with
        | invalidUtf8 => exact terminalOnce_singleton rfl
        | utf8 ts =>
          cases hres : (n.get_with_timeout ts tm d).2 with
          | ok bs =>
            simp only [iroh_get_with_options, hres]
            exact terminalOnce_singleton rfl
          | error e =>
            simp only [iroh_get_with_options, hres]
            exact terminalOnce_singleton rfl
  · intro h r
    cases h with
    | none => exact terminalOnce_singleton rfl
    | some n => cases r <;> exact terminalOnce_singleton rfl
  · intro h r
    cases h with
    | none => exact terminalOnce_singleton rfl
    | some n => cases r <;> exact terminalOnce_singleton rfl
  · intro t
    exact terminalOnce_singleton rfl
  · intro s
    exact terminalOnce_singleton rfl
  · intro s
    cases s with
    | none => exact terminalOnce_singleton rfl
    | some c =>
      cases c with
      | invalidUtf8 => exact terminalOnce_singleton rfl
      | utf8 cs =>
        cases hd : hexDecode cs with
        | none =>
          simp only [iroh_author_from_hex, hd]
          exact terminalOnce_singleton rfl
        | some bs =>
          by_cases hl : bs.length = 32
          · simp only [iroh_author_from_hex, hd, if_pos hl]
            exact terminalOnce_singleton rfl
          · simp only [iroh_author_from_hex, hd, if_neg hl]
            exact terminalOnce_singleton rfl
  · intro h s r
    cases h with
    | none => exact terminalOnce_singleton rfl
    | some n =>
      cases hd : n.docs with
      | none =>
        simp only [iroh_author_import, hd]
        exact terminalOnce_singleton rfl
      | some u =>
        cases r with
        | ok v =>
          simp only [iroh_author_import, hd]
          exact terminalOnce_singleton rfl
        | error e =>
          simp only [iroh_author_import, hd]
          exact terminalOnce_singleton rfl
  · intro h r
    cases h with
    | none => exact terminalOnce_singleton rfl
    | some n =>
      cases hd : n.docs with
      | none =>
        simp only [iroh_doc_create, hd]
        exact terminalOnce_singleton rfl
      | some u =>
        cases r with
        | ok ns =>
          simp only [iroh_doc_create, hd]
          exact terminalOnce_singleton rfl
        | error e =>
          simp only [iroh_doc_create, hd]
          exact terminalOnce_singleton rfl
  · intro h t r
    cases h with
    | none => exact terminalOnce_singleton rfl
    | some n =>
      cases t with
      | none => exact terminalOnce_singleton rfl
      | some c =>
        cases c with
        | invalidUtf8 => exact terminalOnce_singleton rfl
        | utf8 ts =>
          cases ts with
          | garbage i => exact terminalOnce_singleton rfl
          | wellFormed i =>
            cases hd : n.docs with
            | none =>
              simp only [iroh_doc_join, parseDocTicket, hd]
              exact terminalOnce_singleton rfl
            | some u =>
              cases r with
              | ok ns =>
                simp only [iroh_doc_join, parseDocTicket, hd]
                exact terminalOnce_singleton rfl
              | error e =>
                simp only [iroh_doc_join, parseDocTicket, hd]
                exact terminalOnce_singleton rfl
  · intro dh s k v r
    cases dh with
    | none => exact terminalOnce_singleton rfl
    | some w => cases r <;> exact terminalOnce_singleton rfl
  · intro dh k r
    cases dh with
    | none => exact terminalOnce_singleton rfl
    | some w => cases r <;> exact terminalOnce_singleton rfl
  · intro dh s k r
    cases dh with
    | none => exact terminalOnce_singleton rfl
    | some w => cases r <;> exact terminalOnce_singleton rfl
  · intro dh m r
    cases dh with
    | none => exact terminalOnce_singleton rfl
    | some w => cases r <;> exact terminalOnce_singleton rfl
  · intro h ch
    cases h with
    | none => exact terminalOnce_singleton rfl
    | some n =>
      cases ch with
      | none => exact terminalOnce_singleton rfl
      | some c =>
        cases c with
        | invalidUtf8 => exact terminalOnce_singleton rfl
        | utf8 hs =>
          cases hs with
          | garbage i => exact terminalOnce_singleton rfl
          | wellFormed hv =>
            cases hl : storeLookup n.store hv with
            | none =>
              simp only [iroh_doc_read_content, parseHash, hl]
              exact terminalOnce_singleton rfl
            | some bs =>
              simp only [iroh_doc_read_content, parseHash, hl]
              exact terminalOnce_singleton rfl
  · intro dh p items
    cases dh with
    | none => exact terminalOnce_singleton rfl
    | some w =>
      simp only [iroh_doc_get_many]
      exact getManyLoop_terminalOnce items
  · intro dh sr items c
    cases dh with
    | none => exact terminalOnce_singleton rfl
    | some w =>
      cases sr with
      | error e =>
        simp only [iroh_doc_subscribe, subscribeTaskTrace]
        exact terminalOnce_singleton rfl
      | ok u =>
        simp only [iroh_doc_subscribe, subscribeTaskTrace]
        exact subscribeLoop_terminalOnce items c
  · intro h tn hs f r
    cases h with
    | none => exact terminalOnce_singleton rfl
    | some n =>
      cases tn with
      | none => exact terminalOnce_singleton rfl
      | some tc =>
        cases hs with
        | none => cases tc <;> exact terminalOnce_singleton rfl
        | some hc =>
          cases tc with
          | invalidUtf8 => exact terminalOnce_singleton rfl
          | utf8 tv =>
            cases hc with
            | invalidUtf8 => exact terminalOnce_singleton rfl
            | utf8 hv =>
              cases hv with
              | garbage i => exact terminalOnce_singleton rfl
              | wellFormed hb => cases r <;> exact terminalOnce_singleton rfl
  · intro h hs f
    cases h with
    | none => exact terminalOnce_singleton rfl
    | some n =>
      cases hs with
      | none => exact terminalOnce_singleton rfl
      | some hc =>
        cases hc with
        | invalidUtf8 => exact terminalOnce_singleton rfl
        | utf8 hv => cases hv <;> exact terminalOnce_singleton rfl
  · intro h tn r
    cases h with
    | none => exact terminalOnce_singleton rfl
    | some n =>
      cases tn with
      | none => exact terminalOnce_singleton rfl
      | some tc =>
        cases tc with
        | invalidUtf8 => exact terminalOnce_singleton rfl
        | utf8 tv => cases r <;> exact terminalOnce_singleton rfl

/-- C6 counterexample: `iroh_doc_read_content` invoked against a node created
with document-sync disabled performs no docs-enabled check — it attempts the
native blob-store read and can even succeed, instead of reporting a usage
error through the failure callback. -/
theorem read_content_skips_docs_guard :
    sampleNode.docs_enabled = false ∧
    iroh_doc_read_content (some sampleNode)
      (some (CStrArg.utf8 (HashStr.wellFormed [1]))) =
      ([CbEvent.onSuccessBytes [1]], true) ∧
    ((iroh_doc_read_content (some sampleNode)
      (some (CStrArg.utf8 (HashStr.wellFormed [1])))).1.any
        CbEvent.isFailureEv) = false := by
  refine ⟨rfl, ?_, ?_⟩ <;> rfl

/-- C6 amended: the docs-disabled guard holds for the document operations that
take a node handle and reach the Docs engine — `iroh_doc_create`,
`iroh_doc_join` (after ticket parsing), and `iroh_author_import` — which
report the docs-not-enabled usage error without attempting the native call;
`iroh_doc_read_content`, however, performs no docs-enabled check and behaves
identically whether or not document-sync is enabled. -/
theorem docs_disabled_guard (n : IrohNode) (hn : n.docs_enabled = false) :
    (∀ r, iroh_doc_create (some n) r =
      ([CbEvent.onFailure "docs not enabled on this node"], false)) ∧
    (∀ i r, iroh_doc_join (some n)
      (some (CStrArg.utf8 (DocTicketStr.wellFormed i))) r =
      ([CbEvent.onFailure "docs not enabled on this node"], false)) ∧
    (∀ s r, iroh_author_import (some n) s r =
      ([CbEvent.onFailure "docs not enabled on this node"], false)) ∧
    (∀ ch, iroh_doc_read_content (some { n with docs_enabled := true }) ch =
      iroh_doc_read_content (some n) ch) := by
  have hd : n.docs = none := by simp [IrohNode.docs, hn]
  refine ⟨fun r => ?_, fun i r => ?_, fun s r => ?_, fun ch => rfl⟩ <;>
    simp [iroh_doc_create, iroh_doc_join, iroh_author_import, hd, parseDocTicket]

/-- C6 witness: the amended guard evaluated at the concrete docs-disabled
node. -/
theorem docs_disabled_guard_witness :
    iroh_doc_create (some sampleNode) (Except.ok 5) =
      ([CbEvent.onFailure "docs not enabled on this node"], false) :=
  (docs_disabled_guard sampleNode rfl).1 (Except.ok 5)

/-- C7: if the cancellation signal becomes ready before the next event from
the event source (after `k` successfully delivered events), the subscription
task invokes the completion callback — not the failure callback — as its final
callback and exits: the trace is exactly the `k` non-terminal item callbacks
followed by `on_complete`, with nothing delivered afterwards. -/
theorem subscription_cancel_completes (items : List (Except String Nat))
    (k : Nat) (hk : (items.take k).all exceptIsOk = true) :
    subscribeTaskTrace (Except.ok ()) items (some k) =
      deliveredEvents (items.take k) ++ [CbEvent.onComplete] ∧
    ∀ e ∈ deliveredEvents (items.take k), e.isTerminal = false :=
  ⟨subscribeLoop_cancel_first items k hk,
    deliveredEvents_nonterminal (items.take k)⟩

/-- C7 witness: the theorem evaluated with one event delivered before the
cancellation signal fires. -/
theorem subscription_cancel_completes_witness :
    subscribeTaskTrace (Except.ok ()) [Except.ok 5, Except.ok 6] (some 1) =
      deliveredEvents ([Except.ok 5, Except.ok 6].take 1) ++
        [CbEvent.onComplete] ∧
    ∀ e ∈ deliveredEvents ([Except.ok 5, Except.ok 6].take 1),
      e.isTerminal = false :=
  subscription_cancel_completes [Except.ok 5, Except.ok 6] 1 (by decide)

/-- C8: encoding any 32-byte author secret with `iroh_author_secret_to_hex`
and passing the result to `iroh_author_from_hex` invokes `on_success` with
exactly the original secret bytes and an id equal to
`iroh_author_id_from_secret` of that secret; a hex string that does not decode
to exactly 32 bytes invokes the failure callback instead. -/
theorem author_hex_roundtrip :
    (∀ secret : Bytes, secret.length = 32 → (∀ b ∈ secret, b < 256) →
      iroh_author_from_hex
        (some (CStrArg.utf8 (iroh_author_secret_to_hex secret))) =
        [CbEvent.onSuccessAuthor secret (iroh_author_id_from_secret secret)]) ∧
    (∀ cs : List Char, decodesTo32 cs = false →
      ∃ msg, iroh_author_from_hex (some (CStrArg.utf8 cs)) =
        [CbEvent.onFailure msg]) := by
  constructor
  · intro secret hlen hb
    simp [iroh_author_from_hex, iroh_author_secret_to_hex,
      iroh_author_id_from_secret, hexDecode_hexEncode secret hb, hlen]
  · intro cs hcs
    cases hd : hexDecode cs with
    | none =>
      exact ⟨"Invalid hex string", by simp [iroh_author_from_hex, hd]⟩
    | some bs =>
      have hl : bs.length ≠ 32 := by
        intro h
        rw [decodesTo32, hd] at hcs
        simp [h] at hcs
      exact ⟨"Invalid secret length: expected 32 bytes",
        by simp [iroh_author_from_hex, hd, hl]⟩

/-- C8 witness: the round trip evaluated at a concrete 32-byte secret, and the
failure path evaluated at a concrete 2-character hex string. -/
theorem author_hex_roundtrip_witness :
    (iroh_author_from_hex
      (some (CStrArg.utf8 (iroh_author_secret_to_hex (List.replicate 32 7)))) =
      [CbEvent.onSuccessAuthor (List.replicate 32 7)
        (iroh_author_id_from_secret (List.replicate 32 7))]) ∧
    ∃ msg, iroh_author_from_hex (some (CStrArg.utf8 ['a', 'b'])) =
      [CbEvent.onFailure msg] :=
  ⟨author_hex_roundtrip.1 (List.replicate 32 7) (by decide) (by decide),
    author_hex_roundtrip.2 ['a', 'b'] (by decide)⟩

/-- C9: for the timeout-bearing put and get variants with a non-zero timeout,
when the underlying action does not complete within the timeout the operation
returns (and the FFI layer reports through the failure callback) a timeout
error rather than the action's result, and the node state records no effect of
the abandoned action. -/
theorem timeout_surfaces_error (n : IrohNode) (data : Bytes) (ts : TicketStr)
    (b : Option Bytes) (timeout_ms delay : Nat) (io : Except String Unit)
    (h0 : timeout_ms ≠ 0) (hd : timeout_ms < delay) :
    n.put_with_timeout data timeout_ms io delay =
      (n, Except.error "Operation timed out") ∧
    n.get_with_timeout ts timeout_ms delay =
      (n, Except.error "Operation timed out") ∧
    iroh_put_with_options (some n) b timeout_ms io delay =
      ([CbEvent.onFailure "Operation timed out"], true) ∧
    iroh_get_with_options (some n) (some (CStrArg.utf8 ts)) timeout_ms delay =
      ([CbEvent.onFailure "Operation timed out"], true) := by
  have h1 : ¬ delay ≤ timeout_ms := by omega
  refine ⟨?_, ?_, ?_, ?_⟩ <;>
    simp [IrohNode.put_with_timeout, IrohNode.get_with_timeout,
      iroh_put_with_options, iroh_get_with_options, h0, h1]

/-- C9 witness: the theorem evaluated on a concrete node with a 1 ms timeout
and a 2-tick action delay. -/
theorem timeout_surfaces_error_witness :
    IrohNode.put_with_timeout ⟨0, [], false⟩ [1] 1 (Except.ok ()) 2 =
      (⟨0, [], false⟩, Except.error "Operation timed out") ∧
    IrohNode.get_with_timeout ⟨0, [], false⟩ (TicketStr.garbage 0) 1 2 =
      (⟨0, [], false⟩, Except.error "Operation timed out") ∧
    iroh_put_with_options (some ⟨0, [], false⟩) none 1 (Except.ok ()) 2 =
      ([CbEvent.onFailure "Operation timed out"], true) ∧
    iroh_get_with_options (some ⟨0, [], false⟩)
      (some (CStrArg.utf8 (TicketStr.garbage 0))) 1 2 =
      ([CbEvent.onFailure "Operation timed out"], true) :=
  timeout_surfaces_error ⟨0, [], false⟩ [1] (TicketStr.garbage 0) none 1 2
    (Except.ok ()) (by decide) (by decide)

end IrohSwift
